import Mathlib

/-!
Verification of the `ping` reachability probe (src/ping.hpp) against its
natural-language specification.

The C++ code is shallowly embedded: the two wire-format codec classes
(`ipv4_header`, `icmp_header`) become structures whose 60- and 8-byte
storage arrays are functions from indices to byte values; the templated
`compute_checksum` becomes a recursion over a byte list with the 32-bit
accumulator modelled as `% 2^32`; and the asynchronous `pinger` state
machine becomes a step function over an explicit event list (timer
completions and inbound datagrams), with every machine-integer field kept
at its C++ width (`uint8_t` sequence number and count, `uint16_t`
identifier and interval, the `size_t` reply counter truncated with
`% 256` where the code casts it to `uint8_t`).
-/

/-! ## IPv4 header codec (class `ipv4_header`) -/

/-- The `unsigned char rep_[60]` storage of the C++ `ipv4_header` class,
as a function from byte index to stored value (reduced mod 256, the
range of `unsigned char`). -/
structure ipv4_header where
  rep : Fin 60 → Nat

/-- Reading one `unsigned char` cell of the storage array. -/
def ipv4_header.byteAt (h : ipv4_header) (i : Fin 60) : Nat :=
  h.rep i % 256

/-- `decode(a, b)`: big-endian 16-bit read `(rep_[a] << 8) + rep_[b]`. -/
def ipv4_header.decode (h : ipv4_header) (a b : Fin 60) : Nat :=
  (h.byteAt a <<< 8) + h.byteAt b

/-- `version()`: `(rep_[0] >> 4) & 0xF`. -/
def ipv4_header.version (h : ipv4_header) : Nat :=
  (h.byteAt 0 >>> 4) &&& 0xF

/-- `header_length()`: `(rep_[0] & 0xF) * 4`. -/
def ipv4_header.header_length (h : ipv4_header) : Nat :=
  (h.byteAt 0 &&& 0xF) * 4

/-- `source_address()`: the four bytes at offsets 12..15. -/
def ipv4_header.source_address (h : ipv4_header) : List Nat :=
  [h.byteAt 12, h.byteAt 13, h.byteAt 14, h.byteAt 15]

/-- `destination_address()`: the four bytes at offsets 16..19. -/
def ipv4_header.destination_address (h : ipv4_header) : List Nat :=
  [h.byteAt 16, h.byteAt 17, h.byteAt 18, h.byteAt 19]

/-- Stream extraction `operator>>(istream, ipv4_header&)`.

The C++ reads 20 bytes (failing the stream when fewer are available),
sets `failbit` when the version nibble is not 4, computes
`options_length = header_length() - 20` as a signed quantity, sets
`failbit` when it lies outside `[0, 40]`, and otherwise reads
`options_length` further bytes (failing when the stream is exhausted
first).  A failed stream makes the caller drop the datagram, so the
failed cases collapse to `none`; on success the parsed header and the
unconsumed remainder of the stream are returned. -/
def ipv4_read (input : List Nat) : Option (ipv4_header × List Nat) :=
  let bytes := input.map (fun b => b % 256)
  if bytes.length < 20 then Option.none
  else
    let hdr0 : ipv4_header := ⟨fun i => if (i : Nat) < 20 then bytes.getD i 0 else 0⟩
    if hdr0.version ≠ 4 then Option.none
    else
      let options_length : Int := (hdr0.header_length : Int) - 20
      if options_length < 0 ∨ 40 < options_length then Option.none
      else
        let ol := options_length.toNat
        if bytes.length - 20 < ol then Option.none
        else
          Option.some
            (⟨fun i => if (i : Nat) < 20 + ol then bytes.getD i 0 else 0⟩,
             bytes.drop (20 + ol))

/-! ## ICMP header codec (class `icmp_header`) -/

/-- The `unsigned char rep_[8]` storage of the C++ `icmp_header` class. -/
structure icmp_header where
  rep : Fin 8 → Nat

/-- `icmp_header()` zero-fills the storage. -/
def icmp_header.init : icmp_header := ⟨fun _ => 0⟩

/-- Reading one `unsigned char` cell. -/
def icmp_header.byteAt (h : icmp_header) (i : Fin 8) : Nat :=
  h.rep i % 256

/-- `decode(a, b)`: `(rep_[a] << 8) + rep_[b]`. -/
def icmp_header.decode (h : icmp_header) (a b : Fin 8) : Nat :=
  (h.byteAt a <<< 8) + h.byteAt b

/-- `encode(a, b, n)`: store `n >> 8` and `n & 0xFF` (each narrowed to
`unsigned char`). -/
def icmp_header.encode (h : icmp_header) (a b : Fin 8) (n : Nat) : icmp_header :=
  ⟨Function.update (Function.update h.rep a ((n >>> 8) % 256)) b (n % 256)⟩

/-- Enumerator `echo_reply = 0`. -/
def icmp_header.echo_reply : Nat := 0

/-- Enumerator `echo_request = 8`. -/
def icmp_header.echo_request : Nat := 8

/-- Getter `type()`. -/
def icmp_header.type (h : icmp_header) : Nat := h.byteAt 0

/-- Getter `code()`. -/
def icmp_header.code (h : icmp_header) : Nat := h.byteAt 1

/-- Getter `checksum()`. -/
def icmp_header.checksum (h : icmp_header) : Nat := h.decode 2 3

/-- Getter `identifier()`. -/
def icmp_header.identifier (h : icmp_header) : Nat := h.decode 4 5

/-- Getter `sequence_number()`. -/
def icmp_header.sequence_number (h : icmp_header) : Nat := h.decode 6 7

/-- Setter `type(n)` (narrowing to `unsigned char`). -/
def icmp_header.set_type (h : icmp_header) (n : Nat) : icmp_header :=
  ⟨Function.update h.rep 0 (n % 256)⟩

/-- Setter `code(n)`. -/
def icmp_header.set_code (h : icmp_header) (n : Nat) : icmp_header :=
  ⟨Function.update h.rep 1 (n % 256)⟩

/-- Setter `checksum(n)`. -/
def icmp_header.set_checksum (h : icmp_header) (n : Nat) : icmp_header :=
  h.encode 2 3 n

/-- Setter `identifier(n)`. -/
def icmp_header.set_identifier (h : icmp_header) (n : Nat) : icmp_header :=
  h.encode 4 5 n

/-- Setter `sequence_number(n)`. -/
def icmp_header.set_sequence_number (h : icmp_header) (n : Nat) : icmp_header :=
  h.encode 6 7 n

/-- Stream extraction `operator>>(istream, icmp_header&)`: reads 8 raw
bytes, failing the stream when fewer remain. -/
def icmp_read (input : List Nat) : Option (icmp_header × List Nat) :=
  if input.length < 8 then Option.none
  else Option.some (⟨fun i => input.getD i 0⟩, input.drop 8)

/-! ## Internet checksum (`compute_checksum`) -/

/-- `2^32`, the modulus of the C++ `unsigned int` accumulator. -/
def M32 : Nat := 4294967296

/-- The body loop of `compute_checksum`: two bytes are consumed per
iteration, the first shifted into the high half of a 16-bit word; a
final odd byte contributes only a high half.  Every `+=` happens in the
32-bit accumulator, hence the `% M32`. -/
def checksum_loop : List Nat → Nat → Nat
  | [], sum => sum
  | [b], sum => (sum + ((b % 256) <<< 8)) % M32
  | b1 :: b2 :: rest, sum =>
      checksum_loop rest (((sum + ((b1 % 256) <<< 8)) % M32 + b2 % 256) % M32)

/-- `compute_checksum(header, body_begin, body_end)`: one's-complement
sum of the header words and the body byte pairs in a 32-bit
accumulator, folded twice, complemented, and stored into the checksum
field (narrowed to `unsigned short` by the setter). -/
def compute_checksum (header : icmp_header) (body : List Nat) : icmp_header :=
  let sum0 := ((header.type <<< 8) + header.code + header.identifier
      + header.sequence_number) % M32
  let sum1 := checksum_loop body sum0
  let sum2 := ((sum1 >>> 16) + (sum1 &&& 0xFFFF)) % M32
  let sum3 := (sum2 + (sum2 >>> 16)) % M32
  header.set_checksum (M32 - 1 - sum3)

/-- Modelled from the spec (§4.1 "Checksum algorithm"), for comparison
with `compute_checksum`: the body "taken two bytes at a time" as
big-endian 16-bit words, a final odd byte contributing `byte << 8`. -/
def spec_word_sum : List Nat → Nat
  | [] => 0
  | [b] => (b % 256) <<< 8
  | b1 :: b2 :: rest => (((b1 % 256) <<< 8) + b2 % 256) + spec_word_sum rest

/-- Modelled from the spec (§4.1 "Checksum algorithm"), for comparison
with `compute_checksum`: the mathematical (unbounded) sum of the word
`(type << 8 | code)`, the identifier, the sequence number and the body
words, with carries beyond 16 bits folded back in twice, and the final
checksum the bitwise NOT of the folded sum truncated to 16 bits. -/
def spec_checksum (header : icmp_header) (body : List Nat) : Nat :=
  let s := ((header.type <<< 8) ||| header.code) + header.identifier
      + header.sequence_number + spec_word_sum body
  let f1 := (s >>> 16) + (s &&& 0xFFFF)
  let f2 := f1 + (f1 >>> 16)
  65535 - (f2 &&& 0xFFFF)

/-! ## The pinger state machine (class `pinger` and function `ping`)

The asynchronous callback structure is embedded as a step function over
an explicit list of completion events.  One probe run owns one timer and
one socket; at every instant at most one timer wait is pending, and its
handler is one of two continuations: the timeout check lambda installed
by `start_send`, or `start_send` itself installed by that lambda.  The
pending continuation is recorded in `phase`.  An inbound datagram event
runs the `start_receive` handler when a receive is pending and the
socket is open; closing the socket cancels the pending receive. -/

/-- `get_identifier()`: the process id narrowed to `unsigned short`. -/
def get_identifier (pid : Nat) : Nat := pid % 65536

/-- The fixed payload `std::string body("0123456789ABCDEFGHIJKLMNOPQRSTUVWXYZ")`
of every outgoing echo request, as its list of byte values: the ASCII
codes of the digits `0`..`9` (48..57) followed by the letters `A`..`Z`
(65..90). -/
def ping_body : List Nat :=
  [48, 49, 50, 51, 52, 53, 54, 55, 56, 57,
   65, 66, 67, 68, 69, 70, 71, 72, 73, 74, 75, 76, 77,
   78, 79, 80, 81, 82, 83, 84, 85, 86, 87, 88, 89, 90]

/-- Which continuation the pending `async_wait`, if any, will run. -/
inductive TimerPhase where
  /-- no timer wait is pending -/
  | idle : TimerPhase
  /-- the timeout-check lambda installed by `start_send` is pending -/
  | check : TimerPhase
  /-- `start_send`, installed by the timeout-check lambda, is pending -/
  | send : TimerPhase
deriving DecidableEq

/-- The session state of one probe run: the public data members of the
C++ `pinger` plus the scheduling facts the callbacks encode (pending
timer continuation and expiry, pending receive, socket state) and a
ghost log of transmitted datagrams with their send times. -/
structure pinger where
  /-- `num_replies_` (`std::size_t`) -/
  num_replies : Nat
  /-- `sequence_number_` (`uint8_t`) -/
  sequence_number : Nat
  /-- `count_` (`uint8_t`) -/
  count : Nat
  /-- `timer_interval_` (`uint16_t`) -/
  timer_interval : Nat
  /-- `time_sent_`, in milliseconds of the steady clock -/
  time_sent : Nat
  /-- the absolute expiry the timer is currently set to -/
  timer_expiry : Nat
  /-- whether `socket_` is open -/
  socket_open : Bool
  /-- whether an `async_receive` is pending -/
  receiving : Bool
  /-- the pending timer continuation -/
  phase : TimerPhase
  /-- ghost log: `(send time, datagram bytes)` of every transmitted probe -/
  sent : List (Nat × List Nat)
deriving DecidableEq

/-- `pinger::start_send()`, run at steady-clock time `now`: if
`sequence_number_ >= count_` it returns without arming anything;
otherwise it pre-increments the `uint8_t` sequence number, builds the
echo request (type 8, code 0, identifier `get_identifier()`, the new
sequence number, checksum over header and body), transmits header plus
body, records `time_sent_`, and arms the timer for
`time_sent_ + timer_interval_` with the timeout-check lambda. -/
def pinger.start_send (pid : Nat) (now : Nat) (p : pinger) : pinger :=
  if p.sequence_number ≥ p.count then
    { p with phase := TimerPhase.idle }
  else
    let seq := (p.sequence_number + 1) % 256
    let echo_request :=
      (((icmp_header.init.set_type icmp_header.echo_request).set_code 0).set_identifier
          (get_identifier pid)).set_sequence_number seq
    let echo_request := compute_checksum echo_request ping_body
    { p with
      sequence_number := seq
      time_sent := now
      sent := p.sent ++ [(now,
        [echo_request.byteAt 0, echo_request.byteAt 1, echo_request.byteAt 2,
         echo_request.byteAt 3, echo_request.byteAt 4, echo_request.byteAt 5,
         echo_request.byteAt 6, echo_request.byteAt 7] ++ ping_body)]
      timer_expiry := now + p.timer_interval
      phase := TimerPhase.check }

/-- The timeout-check lambda inside `pinger::start_send`: when
`sequence_number_ >= count_` it closes the socket (cancelling the
pending receive) and returns; otherwise it re-arms the timer — again
for `time_sent_ + timer_interval_`, the expiry that has just been
reached — with `start_send` as the next continuation. -/
def pinger.handle_timeout (p : pinger) : pinger :=
  if p.sequence_number ≥ p.count then
    { p with socket_open := false, receiving := false, phase := TimerPhase.idle }
  else
    { p with timer_expiry := p.time_sent + p.timer_interval, phase := TimerPhase.send }

/-- Decoding an inbound datagram as the receive handler does:
an IPv4 header followed by an ICMP header, `none` when either stream
extraction fails. -/
def parse_reply (data : List Nat) : Option icmp_header :=
  match ipv4_read data with
  | Option.none => Option.none
  | Option.some (_, rest) =>
    match icmp_read rest with
    | Option.none => Option.none
    | Option.some (icmp_hdr, _) => Option.some icmp_hdr

/-- The acceptance test of the receive handler, as a decidable
function of the inbound bytes: both headers parse, the type is
`echo_reply`, the identifier is this process's token, and the sequence
number equals the prober's current one. -/
def reply_match (pid seq : Nat) (data : List Nat) : Bool :=
  match parse_reply data with
  | Option.none => false
  | Option.some icmp_hdr =>
    decide (icmp_hdr.type = icmp_header.echo_reply
      ∧ icmp_hdr.identifier = get_identifier pid
      ∧ icmp_hdr.sequence_number = seq)

/-- The lambda inside `pinger::start_receive`, applied to one inbound
datagram: parse, bump `num_replies_` exactly on a full match, and
re-arm the receive when `sequence_number_ < count_`. -/
def pinger.handle_receive (pid : Nat) (p : pinger) (data : List Nat) : pinger :=
  let p' :=
    if reply_match pid p.sequence_number data then
      { p with num_replies := p.num_replies + 1 }
    else p
  { p' with receiving := decide (p'.sequence_number < p'.count) }

/-- One completion event of the io context: a timer wait finishing, an
inbound datagram, or a transport-level fault (an exception thrown out
of a handler). -/
inductive Event where
  | timer_fire : Event
  | datagram : List Nat → Event
  | fault : Event
deriving DecidableEq

/-- Dispatch of one (non-fault) completion event. A timer completion
runs whichever continuation is pending; a datagram runs the receive
handler when a receive is pending on the open socket and is otherwise
never delivered (close cancels the pending receive). -/
def pinger.step (pid : Nat) (p : pinger) (e : Event) : pinger :=
  match e with
  | Event.timer_fire =>
    match p.phase with
    | TimerPhase.idle => p
    | TimerPhase.check => p.handle_timeout
    | TimerPhase.send => p.start_send pid p.timer_expiry
  | Event.datagram data =>
    if p.socket_open ∧ p.receiving then p.handle_receive pid data else p
  | Event.fault => p

/-- `io_context::run()` over an event list: events are dispatched in
order; a fault aborts the loop (the exception unwinds out of `run()`
into the `catch` in `ping`), leaving the session state as it was. -/
def pinger.run (pid : Nat) : pinger → List Event → pinger
  | p, [] => p
  | p, e :: es =>
    match e with
    | Event.fault => p
    | _ => pinger.run pid (p.step pid e) es

/-- The session state `ping` has set up just before `io_context::run()`:
counters zeroed by the constructor, `count_` clamped below at 2,
`timer_interval_` stored, then `start_send()` at time 0 followed by
`start_receive()` (which arms the first receive unconditionally).
`count` and `timer_milliseconds` pass through their C++ parameter
widths (`uint8_t`, `uint16_t`). -/
def ping_init (pid count timer_milliseconds : Nat) : pinger :=
  let c := if count % 256 < 2 then 2 else count % 256
  let p : pinger :=
    { num_replies := 0
      sequence_number := 0
      count := c
      timer_interval := timer_milliseconds % 65536
      time_sent := 0
      timer_expiry := 0
      socket_open := true
      receiving := false
      phase := TimerPhase.idle
      sent := [] }
  let p := p.start_send pid 0
  { p with receiving := true }

/-- The session state at the end of a run described by `events`. -/
def ping_final (pid count timer_milliseconds : Nat) (events : List Event) : pinger :=
  pinger.run pid (ping_init pid count timer_milliseconds) events

/-- `bool ping(address, count, timer_milliseconds)`.  The `pinger`
constructor (raw-socket creation) runs before the `try` block: when it
throws, the exception leaves `ping` — modelled as `Except.error`.
Faults inside the `try` are caught and the function falls through to
the verdict `(uint8_t)num_replies_ > count_ / 2` over whatever was
collected, the `uint8_t` cast truncating the `size_t` counter mod 256.
The destination `address` only parametrises where datagrams go, which
the model does not track beyond the ghost send log. -/
def ping (address pid count timer_milliseconds : Nat) (socket_fails : Bool)
    (events : List Event) : Except Unit Bool :=
  if socket_fails then Except.error ()
  else
    let p := ping_final pid count timer_milliseconds events
    Except.ok (decide (p.num_replies % 256 > p.count / 2))

/-! ## Concrete inputs used by counterexamples and witnesses -/

/-- An ICMP header whose four summed fields are all maximal. -/
def big_header : icmp_header :=
  (((icmp_header.init.set_type 255).set_code 255).set_identifier 65535).set_sequence_number 65535

/-- A 131072-byte body of `0xFF` bytes: long enough that the word sum
overflows the 32-bit accumulator of `compute_checksum`. -/
def big_body : List Nat := List.replicate 131072 255

/-- The shared tail of both checksum definitions: fold the carries back
in twice, complement within 16 bits. -/
def fold_complement (s : Nat) : Nat :=
  let f1 := (s >>> 16) + (s &&& 0xFFFF)
  let f2 := f1 + (f1 >>> 16)
  65535 - (f2 &&& 0xFFFF)

/-- A canonical 20-byte IPv4 header: version 4, length field 5, source
address 10.0.0.1, destination address 192.168.1.7. -/
def c4_input : List Nat :=
  [69, 0, 0, 40, 0, 0, 0, 0, 64, 1, 0, 0, 10, 0, 0, 1, 192, 168, 1, 7]

/-- An inbound datagram that matches the probe with sequence number 1
of a session run under process id 5: a canonical 20-byte IPv4 header
followed by an 8-byte ICMP echo reply with identifier 5 and sequence
number 1. -/
def c9_datagram : List Nat :=
  [69, 0, 0, 0, 0, 0, 0, 0, 0, 0, 0, 0, 1, 2, 3, 4, 5, 6, 7, 8,
   0, 0, 0, 0, 0, 5, 0, 1]

/-- A complete run: three copies of the same matching reply for probe 1,
then the timer completions that send probe 2 and close the socket. -/
def c9_events : List Event :=
  List.replicate 3 (Event.datagram c9_datagram)
    ++ [Event.timer_fire, Event.timer_fire, Event.timer_fire]

/-- A complete run with 256 copies of the same matching reply for probe
1, then the timer completions that send probes 2..4 and close the
socket. -/
def c1_events : List Event :=
  List.replicate 256 (Event.datagram c9_datagram) ++ List.replicate 7 Event.timer_fire


/-! ## Helper lemmas -/

/-- The byte list `ping_body` is exactly the payload string of the
source. -/
theorem ping_body_is_payload :
    ping_body = "0123456789ABCDEFGHIJKLMNOPQRSTUVWXYZ".toList.map Char.toNat := by
  decide

theorem and_ffff_eq_mod (x : Nat) : x &&& 65535 = x % 65536 := by
  have h := Nat.and_pow_two_sub_one_eq_mod x 16
  norm_num at h
  exact h

theorem and_f_eq_mod (x : Nat) : x &&& 15 = x % 16 := by
  have h := Nat.and_pow_two_sub_one_eq_mod x 4
  norm_num at h
  exact h

theorem lor_byte (t c : Nat) (hc : c < 256) : (t <<< 8) ||| c = (t <<< 8) + c := by
  have hc2 : c < 2 ^ 8 := lt_of_lt_of_le hc (by norm_num)
  have h := (Nat.mul_add_lt_is_or hc2 t).symm
  rw [Nat.shiftLeft_eq, mul_comm t (2 ^ 8)]
  exact h

theorem icmp_byteAt_lt (h : icmp_header) (i : Fin 8) : h.byteAt i < 256 :=
  Nat.mod_lt _ (by omega)

theorem icmp_decode_le (h : icmp_header) (a b : Fin 8) : h.decode a b ≤ 65535 := by
  have ha := icmp_byteAt_lt h a
  have hb := icmp_byteAt_lt h b
  unfold icmp_header.decode
  rw [Nat.shiftLeft_eq]
  norm_num
  omega

theorem checksum_loop_eq : ∀ (body : List Nat) (s : Nat), s < M32 →
    checksum_loop body s = (s + spec_word_sum body) % M32 := by
  intro body s
  induction body, s using checksum_loop.induct with
  | case1 s =>
    intro hs
    simp [checksum_loop, spec_word_sum, Nat.mod_eq_of_lt hs]
  | case2 b s =>
    intro _
    simp [checksum_loop, spec_word_sum]
  | case3 b1 b2 rest s ih =>
    intro hs
    have hacc : ((s + ((b1 % 256) <<< 8)) % M32 + b2 % 256) % M32 < M32 := by
      apply Nat.mod_lt
      simp [M32]
    simp only [checksum_loop, spec_word_sum]
    rw [ih hacc]
    simp only [M32] at *
    omega

theorem set_checksum_checksum (h : icmp_header) (n : Nat) :
    (h.set_checksum n).checksum = n % 65536 := by
  simp [icmp_header.set_checksum, icmp_header.encode, icmp_header.checksum,
    icmp_header.decode, icmp_header.byteAt, Function.update_apply,
    Nat.shiftLeft_eq, Nat.shiftRight_eq_div_pow]
  omega

theorem set_checksum_type (h : icmp_header) (n : Nat) :
    (h.set_checksum n).type = h.type := by
  simp [icmp_header.set_checksum, icmp_header.encode, icmp_header.type,
    icmp_header.byteAt, Function.update_apply]

theorem set_checksum_code (h : icmp_header) (n : Nat) :
    (h.set_checksum n).code = h.code := by
  simp [icmp_header.set_checksum, icmp_header.encode, icmp_header.code,
    icmp_header.byteAt, Function.update_apply]

theorem set_checksum_identifier (h : icmp_header) (n : Nat) :
    (h.set_checksum n).identifier = h.identifier := by
  simp [icmp_header.set_checksum, icmp_header.encode, icmp_header.identifier,
    icmp_header.decode, icmp_header.byteAt, Function.update_apply]

theorem set_checksum_sequence_number (h : icmp_header) (n : Nat) :
    (h.set_checksum n).sequence_number = h.sequence_number := by
  simp [icmp_header.set_checksum, icmp_header.encode, icmp_header.sequence_number,
    icmp_header.decode, icmp_header.byteAt, Function.update_apply]

theorem compute_checksum_eq_spec (h : icmp_header) (body : List Nat)
    (hS : (h.type <<< 8) + h.code + h.identifier + h.sequence_number
      + spec_word_sum body < M32) :
    (compute_checksum h body).checksum = spec_checksum h body := by
  have hcode : h.code < 256 := icmp_byteAt_lt h 1
  simp only [compute_checksum, spec_checksum]
  rw [set_checksum_checksum]
  rw [checksum_loop_eq _ _ (Nat.mod_lt _ (by norm_num [M32]))]
  rw [lor_byte _ _ hcode]
  simp only [and_ffff_eq_mod, Nat.shiftRight_eq_div_pow, Nat.shiftLeft_eq, M32] at *
  omega

theorem spec_word_sum_replicate (n : Nat) :
    spec_word_sum (List.replicate (2 * n) 255) = n * 65535 := by
  induction n with
  | zero => simp [spec_word_sum]
  | succ k ih =>
    have h2 : 2 * (k + 1) = 2 * k + 1 + 1 := by ring
    rw [h2, List.replicate_succ, List.replicate_succ]
    simp only [spec_word_sum]
    rw [ih]
    simp [Nat.shiftLeft_eq]
    ring

theorem spec_word_sum_big_body : spec_word_sum big_body = 65536 * 65535 := by
  have h := spec_word_sum_replicate 65536
  norm_num at h
  exact h

theorem spec_checksum_as_fold (h : icmp_header) (body : List Nat) :
    spec_checksum h body
      = fold_complement (((h.type <<< 8) ||| h.code) + h.identifier
          + h.sequence_number + spec_word_sum body) := rfl

theorem compute_checksum_as_fold (h : icmp_header) (body : List Nat) :
    (compute_checksum h body).checksum
      = fold_complement (((h.type <<< 8) + h.code + h.identifier
          + h.sequence_number + spec_word_sum body) % M32) := by
  simp only [compute_checksum, fold_complement]
  rw [set_checksum_checksum]
  rw [checksum_loop_eq _ _ (Nat.mod_lt _ (by norm_num [M32]))]
  simp only [and_ffff_eq_mod, Nat.shiftRight_eq_div_pow, M32]
  omega

/-- C3: the claim quantifies over every header and every body.  At the
explicit input `big_header` and the 131072-byte body `big_body`, the
code stores checksum 1 (the word sum having wrapped in the 32-bit
accumulator), while the sum-then-fold-twice-then-complement formula of
the spec gives 0 — the claim as stated is false there. -/
theorem C3_counterexample :
    (compute_checksum big_header big_body).checksum = 1 ∧
    spec_checksum big_header big_body = 0 ∧
    (compute_checksum big_header big_body).checksum ≠ spec_checksum big_header big_body := by
  have htype : big_header.type = 255 := by decide
  have hcode : big_header.code = 255 := by decide
  have hid : big_header.identifier = 65535 := by decide
  have hseq : big_header.sequence_number = 65535 := by decide
  have hcompute : (compute_checksum big_header big_body).checksum = 1 :=
    calc (compute_checksum big_header big_body).checksum
        = fold_complement (((big_header.type <<< 8) + big_header.code
            + big_header.identifier + big_header.sequence_number
            + spec_word_sum big_body) % M32) := compute_checksum_as_fold _ _
      _ = fold_complement (((255 <<< 8) + 255 + 65535 + 65535 + 65536 * 65535) % M32) := by
            rw [htype, hcode, hid, hseq, spec_word_sum_big_body]
      _ = 1 := by decide
  have hspec : spec_checksum big_header big_body = 0 :=
    calc spec_checksum big_header big_body
        = fold_complement (((big_header.type <<< 8) ||| big_header.code)
            + big_header.identifier + big_header.sequence_number
            + spec_word_sum big_body) := spec_checksum_as_fold _ _
      _ = fold_complement (((255 <<< 8) ||| 255) + 65535 + 65535 + 65536 * 65535) := by
            rw [htype, hcode, hid, hseq, spec_word_sum_big_body]
      _ = 0 := by decide
  refine ⟨hcompute, hspec, ?_⟩
  rw [hcompute, hspec]
  omega

theorem getD_map_mod (l : List Nat) (i : Nat) :
    (l.map (fun b => b % 256)).getD i 0 = l.getD i 0 % 256 := by
  induction l generalizing i with
  | nil => simp [List.getD]
  | cons a t ih =>
    cases i with
    | zero => simp [List.getD]
    | succ j => simpa [List.getD] using ih j


theorem optionD_map_mod (o : Option Nat) :
    (Option.map (fun b => b % 256) o).getD 0 = o.getD 0 % 256 := by
  cases o <;> simp

theorem ipv4_read_eq_none_iff (input : List Nat) :
    ipv4_read input = Option.none ↔
      (input.length < 20
        ∨ (input.getD 0 0 % 256) >>> 4 &&& 15 ≠ 4
        ∨ (input.getD 0 0 % 256 &&& 15) * 4 < 20
        ∨ input.length < (input.getD 0 0 % 256 &&& 15) * 4) := by
  simp only [ipv4_read, ipv4_header.version, ipv4_header.header_length,
    ipv4_header.byteAt, List.length_map]
  norm_num [getD_map_mod, optionD_map_mod]
  simp only [and_f_eq_mod, Nat.shiftRight_eq_div_pow] at *
  constructor
  · intro H
    by_contra hR
    push_neg at hR
    obtain ⟨h1, h2, h3, h4⟩ := hR
    have hcontra := H (by omega) h2 (by omega) (by omega) (by omega)
    exact absurd hcontra (by simp)
  · intro hR h1 h2 h3 h4 h5
    exfalso
    omega

theorem ipv4_read_canonical (input : List Nat) (h20 : input.length = 20)
    (hb0 : input.getD 0 0 = 69) :
    ∃ h : ipv4_header, ipv4_read input = Option.some (h, [])
      ∧ h.source_address = [input.getD 12 0 % 256, input.getD 13 0 % 256,
          input.getD 14 0 % 256, input.getD 15 0 % 256]
      ∧ h.destination_address = [input.getD 16 0 % 256, input.getD 17 0 % 256,
          input.getD 18 0 % 256, input.getD 19 0 % 256] := by
  have hbl : (input.map (fun b => b % 256)).length = 20 := by simp [h20]
  have hb0'' : (Option.map (fun b => b % 256) (input[0]?)).getD 0 = 69 := by
    rw [optionD_map_mod, ← List.getD_eq_getElem?_getD, hb0]
  have hdrop : (input.map (fun b => b % 256)).drop 20 = [] := by
    rw [← hbl]
    exact List.drop_length _
  simp only [ipv4_read, ipv4_header.version, ipv4_header.header_length,
    ipv4_header.byteAt, hbl]
  norm_num [hb0'', hdrop]
  refine ⟨_, ⟨by decide, by decide, by decide, rfl, by rw [h20]; decide⟩, ?_, ?_⟩
  · simp +decide [ipv4_header.source_address, ipv4_header.byteAt, optionD_map_mod,
      List.getD_eq_getElem?_getD,
      show ((12 : Fin 60) : Nat) = 12 from rfl, show ((13 : Fin 60) : Nat) = 13 from rfl,
      show ((14 : Fin 60) : Nat) = 14 from rfl, show ((15 : Fin 60) : Nat) = 15 from rfl]
  · simp +decide [ipv4_header.destination_address, ipv4_header.byteAt, optionD_map_mod,
      List.getD_eq_getElem?_getD,
      show ((16 : Fin 60) : Nat) = 16 from rfl, show ((17 : Fin 60) : Nat) = 17 from rfl,
      show ((18 : Fin 60) : Nat) = 18 from rfl, show ((19 : Fin 60) : Nat) = 19 from rfl]

/-- C4: decoding an IPv4 header fails exactly when the version nibble is
not 4, or the derived options length (header_length*4 − 20) lies outside
[0,40], or the stream holds fewer bytes than required (20 bytes of fixed
header plus the options); and a canonical 20-byte version-4 header with
length field 5 decodes successfully, `source_address` and
`destination_address` returning exactly the bytes at offsets 12–15 and
16–19. -/
theorem C4_ipv4_decode (input : List Nat) :
    (ipv4_read input = Option.none ↔
      ((input.getD 0 0 % 256) >>> 4 &&& 15 ≠ 4
        ∨ (((((input.getD 0 0 % 256) &&& 15) * 4 : Nat) : Int) - 20 < 0
            ∨ 40 < ((((input.getD 0 0 % 256) &&& 15) * 4 : Nat) : Int) - 20)
        ∨ (input.length < 20
            ∨ (input.length : Int) < 20 + (((((input.getD 0 0 % 256) &&& 15) * 4 : Nat) : Int) - 20))))
    ∧ (input.length = 20 → input.getD 0 0 = 69 →
        ∃ h : ipv4_header, ipv4_read input = Option.some (h, [])
          ∧ h.source_address = [input.getD 12 0 % 256, input.getD 13 0 % 256,
              input.getD 14 0 % 256, input.getD 15 0 % 256]
          ∧ h.destination_address = [input.getD 16 0 % 256, input.getD 17 0 % 256,
              input.getD 18 0 % 256, input.getD 19 0 % 256]) := by
  constructor
  · rw [ipv4_read_eq_none_iff]
    simp only [and_f_eq_mod, Nat.shiftRight_eq_div_pow]
    omega
  · exact ipv4_read_canonical input

/-- C4 witness: the claim instantiated at the concrete canonical header
`c4_input`, both hypotheses of the success half discharged there. -/
theorem C4_witness :
    ∃ h : ipv4_header, ipv4_read c4_input = Option.some (h, [])
      ∧ h.source_address = [c4_input.getD 12 0 % 256, c4_input.getD 13 0 % 256,
          c4_input.getD 14 0 % 256, c4_input.getD 15 0 % 256]
      ∧ h.destination_address = [c4_input.getD 16 0 % 256, c4_input.getD 17 0 % 256,
          c4_input.getD 18 0 % 256, c4_input.getD 19 0 % 256] :=
  (C4_ipv4_decode c4_input).2 (by decide) (by decide)

/-- C10: `header_length()` always returns a multiple of 4 in [0,60], the
derived options length never exceeds 40 (so the `> 40` failure branch of
the decoder is unreachable), and a parse can fail only because the
version nibble is not 4, the header length is below 20, or the input
stream is shorter than required. -/
theorem C10_header_length_bounds :
    (∀ h : ipv4_header, h.header_length % 4 = 0 ∧ h.header_length ≤ 60)
    ∧ (∀ h : ipv4_header, ¬ (40 < ((h.header_length : Int) - 20)))
    ∧ (∀ input : List Nat, ipv4_read input = Option.none ↔
        ((input.getD 0 0 % 256) >>> 4 &&& 15 ≠ 4
          ∨ (input.getD 0 0 % 256 &&& 15) * 4 < 20
          ∨ input.length < 20
          ∨ input.length < (input.getD 0 0 % 256 &&& 15) * 4)) := by
  refine ⟨?_, ?_, ?_⟩
  · intro h
    simp only [ipv4_header.header_length, and_f_eq_mod]
    omega
  · intro h
    simp only [ipv4_header.header_length, and_f_eq_mod]
    omega
  · intro input
    rw [ipv4_read_eq_none_iff]
    simp only [and_f_eq_mod, Nat.shiftRight_eq_div_pow]
    omega

/-- C3 (amended): `compute_checksum` accumulates the word sum in a
32-bit register, so the claim holds with the sum taken mod 2^32; in
particular, whenever the total word sum stays below 2^32 (hypothesis
`hS`, true for every body shorter than about 128 KiB and for every
packet this program builds), the stored checksum is exactly the
spec formula: fold the carries back in twice and complement within 16
bits. -/
theorem C3_checksum_no_overflow (h : icmp_header) (body : List Nat)
    (hS : (h.type <<< 8) + h.code + h.identifier + h.sequence_number
      + spec_word_sum body < M32) :
    (compute_checksum h body).checksum = spec_checksum h body :=
  compute_checksum_eq_spec h body hS

/-- C3 witness: the amended claim applied at the all-zero header and the
program's fixed 36-byte payload. -/
theorem C3_witness :
    ((icmp_header.init.type <<< 8) + icmp_header.init.code + icmp_header.init.identifier
      + icmp_header.init.sequence_number + spec_word_sum ping_body < M32)
    ∧ (compute_checksum icmp_header.init ping_body).checksum
        = spec_checksum icmp_header.init ping_body :=
  ⟨by decide, C3_checksum_no_overflow icmp_header.init ping_body (by decide)⟩


theorem reply_match_iff (pid seq : Nat) (data : List Nat) :
    reply_match pid seq data = true ↔
      (∃ hdr : icmp_header, parse_reply data = Option.some hdr
        ∧ hdr.type = icmp_header.echo_reply
        ∧ hdr.identifier = get_identifier pid
        ∧ hdr.sequence_number = seq) := by
  unfold reply_match
  cases hp : parse_reply data with
  | none => simp
  | some hdr => simp

theorem C2_receive_filter (pid : Nat) (p : pinger) (data : List Nat) :
    ((p.handle_receive pid data).num_replies = p.num_replies + 1 ↔
      (∃ hdr : icmp_header, parse_reply data = Option.some hdr
        ∧ hdr.type = icmp_header.echo_reply
        ∧ hdr.identifier = get_identifier pid
        ∧ hdr.sequence_number = p.sequence_number))
    ∧ ((p.handle_receive pid data).num_replies = p.num_replies ↔
      ¬(∃ hdr : icmp_header, parse_reply data = Option.some hdr
        ∧ hdr.type = icmp_header.echo_reply
        ∧ hdr.identifier = get_identifier pid
        ∧ hdr.sequence_number = p.sequence_number))
    ∧ (p.handle_receive pid data).sequence_number = p.sequence_number
    ∧ (p.handle_receive pid data).count = p.count
    ∧ (p.handle_receive pid data).timer_interval = p.timer_interval
    ∧ (p.handle_receive pid data).time_sent = p.time_sent
    ∧ (p.handle_receive pid data).timer_expiry = p.timer_expiry
    ∧ (p.handle_receive pid data).socket_open = p.socket_open
    ∧ (p.handle_receive pid data).phase = p.phase
    ∧ (p.handle_receive pid data).sent = p.sent := by
  rw [← reply_match_iff pid p.sequence_number data]
  cases hm : reply_match pid p.sequence_number data <;>
    simp [pinger.handle_receive, hm]

/-- C9: the receive handler keeps no per-sequence record, so a datagram
that matches is counted again even when an identical one was already
counted: processing the same matching datagram twice adds 2.  In the
concrete complete run `c9_events` (count clamped to 2), three copies of
one matching reply for sequence number 1 yield 3 counted replies against
2 probes sent, and the verdict is true although only the one probe with
sequence 1 — not a strict majority of the 2 distinct probes — was ever
answered. -/
theorem C9_no_dedup :
    (∀ (pid : Nat) (p : pinger) (data : List Nat),
      reply_match pid p.sequence_number data = true →
        ((p.handle_receive pid data).handle_receive pid data).num_replies
          = p.num_replies + 2)
    ∧ ping 0 5 2 1000 false c9_events = Except.ok true
    ∧ (ping_final 5 2 1000 c9_events).num_replies = 3
    ∧ (ping_final 5 2 1000 c9_events).sent.length = 2
    ∧ (ping_final 5 2 1000 c9_events).num_replies
        > (ping_final 5 2 1000 c9_events).sent.length
    ∧ ¬(1 > (ping_final 5 2 1000 c9_events).count / 2) := by
  refine ⟨?_, rfl, rfl, rfl, by decide, by decide⟩
  intro pid p data hm
  simp [pinger.handle_receive, hm]

/-- C9 witness: the no-dedup half applied to the session right after the
first probe (sequence number 1) and the concrete matching datagram. -/
theorem C9_witness :
    reply_match 5 (ping_init 5 2 1000).sequence_number c9_datagram = true
    ∧ (((ping_init 5 2 1000).handle_receive 5 c9_datagram).handle_receive
          5 c9_datagram).num_replies = (ping_init 5 2 1000).num_replies + 2 :=
  ⟨by decide, C9_no_dedup.1 5 (ping_init 5 2 1000) c9_datagram (by decide)⟩

/-- C1 (amended): the returned boolean compares the reply counter
truncated to `uint8_t` — `(uint8_t)num_replies_ > count_ / 2` — so the
claim as stated holds exactly when the final counter is below 256; in
general the verdict is the majority test applied to
`num_replies mod 256`. -/
theorem C1_verdict (address pid count tm : Nat) (events : List Event) :
    (ping address pid count tm false events
        = Except.ok (decide ((ping_final pid count tm events).num_replies % 256
            > (ping_final pid count tm events).count / 2)))
    ∧ ((ping_final pid count tm events).num_replies < 256 →
        (ping address pid count tm false events = Except.ok true
          ↔ (ping_final pid count tm events).num_replies
              > (ping_final pid count tm events).count / 2)) := by
  constructor
  · rfl
  · intro hlt
    have h256 := Nat.mod_eq_of_lt hlt
    simp [ping, h256]

/-- C1 witness: the amended claim applied to the empty run with count 4,
where the counter (0) is below 256. -/
theorem C1_witness :
    (ping_final 5 4 1000 []).num_replies < 256
    ∧ (ping 0 5 4 1000 false [] = Except.ok true
        ↔ (ping_final 5 4 1000 []).num_replies > (ping_final 5 4 1000 []).count / 2) :=
  ⟨by decide, (C1_verdict 0 5 4 1000 []).2 (by decide)⟩

set_option maxRecDepth 8000 in
/-- C1 counterexample: the complete run `c1_events` (socket closed at
the end) counts 256 matching replies with count 4; the claim as stated
demands verdict true (256 > 4/2), but `ping` returns false because the
`uint8_t` cast truncates 256 to 0. -/
theorem C1_counterexample :
    ping 0 5 4 1000 false c1_events = Except.ok false
    ∧ (ping_final 5 4 1000 c1_events).num_replies = 256
    ∧ (ping_final 5 4 1000 c1_events).count = 4
    ∧ (ping_final 5 4 1000 c1_events).socket_open = false
    ∧ (ping_final 5 4 1000 c1_events).num_replies
        > (ping_final 5 4 1000 c1_events).count / 2 := by
  refine ⟨rfl, by decide, by decide, by decide, by decide⟩

/-- C7: `ping` stores `count_ = (count < 2 ? 2 : count)`: a run invoked
with count 1 is the same function of the events as one invoked with
count 2, and any count in [2,255] is used unchanged. -/
theorem C7_count_clamp :
    (∀ (address pid tm : Nat) (sf : Bool) (events : List Event),
      ping address pid 1 tm sf events = ping address pid 2 tm sf events)
    ∧ (∀ (pid c tm : Nat), 2 ≤ c → c < 256 → (ping_init pid c tm).count = c)
    ∧ (∀ (pid tm : Nat), (ping_init pid 1 tm).count = 2) := by
  refine ⟨?_, ?_, ?_⟩
  · intro address pid tm sf events
    have h : ping_init pid 1 tm = ping_init pid 2 tm := rfl
    simp [ping, ping_final, h]
  · intro pid c tm h2 h256
    have hc : c % 256 = c := Nat.mod_eq_of_lt h256
    have hc2 : (if c % 256 < 2 then 2 else c % 256) = c := by
      rw [hc]
      exact if_neg (by omega)
    simp [ping_init, pinger.start_send, hc2]
    split <;> rfl
  · intro pid tm
    rfl

/-- C7 witness: the clamp facts applied at count 7 (kept) and count 1
(raised to 2). -/
theorem C7_witness :
    (2 ≤ 7 ∧ 7 < 256) ∧ (ping_init 5 7 1000).count = 7
      ∧ ping 0 5 1 1000 false [] = ping 0 5 2 1000 false [] :=
  ⟨by decide, C7_count_clamp.2.1 5 7 1000 (by decide) (by decide),
    C7_count_clamp.1 0 5 1000 false []⟩

theorem run_append_fault (pid : Nat) (s : pinger) (pre post : List Event) :
    pinger.run pid s (pre ++ Event.fault :: post) = pinger.run pid s pre := by
  induction pre generalizing s with
  | nil => simp [pinger.run]
  | cons e es ih => cases e <;> simp [pinger.run, ih]

/-- C6 (amended): every fault raised inside the `try` block (send
failure, receive failure, any I/O error — modelled as a `fault` event)
is absorbed: `ping` still returns a verdict, namely the majority test
over the replies collected before the first fault, which ended the
event loop.  A socket-creation failure, however, occurs in the `pinger`
constructor, which runs before the `try`, and is modelled separately
(`socket_fails`): it escapes as an exception. -/
theorem C6_fault_absorbed :
    (∀ (address pid count tm : Nat) (events : List Event),
      (ping address pid count tm false events).isOk = true)
    ∧ (∀ (address pid count tm : Nat) (pre post : List Event),
      ping address pid count tm false (pre ++ Event.fault :: post)
        = ping address pid count tm false pre) := by
  constructor
  · intro address pid count tm events
    simp [ping, Except.isOk, Except.toBool]
  · intro address pid count tm pre post
    simp [ping, ping_final, run_append_fault]

/-- C6 counterexample: when raw-socket creation fails, the exception is
thrown by the `pinger` constructor, which line 295 places before the
`try` block of `ping`: it propagates to the caller instead of being
absorbed into a false verdict. -/
theorem C6_counterexample :
    ping 0 5 4 1000 true [] = Except.error ()
    ∧ (ping 0 5 4 1000 true []).isOk ≠ true := by
  refine ⟨rfl, by decide⟩

theorem run_closed_idle (pid : Nat) (s : pinger) (hs : s.socket_open = false)
    (hp : s.phase = TimerPhase.idle) :
    ∀ events : List Event, pinger.run pid s events = s := by
  intro events
  induction events with
  | nil => rfl
  | cons e es ih =>
    cases e with
    | fault => rfl
    | timer_fire => simpa [pinger.run, pinger.step, hp] using ih
    | datagram d => simpa [pinger.run, pinger.step, hs] using ih

/-- C5 (amended): on a timeout-check completion with
`sequence_number_ >= count_` the socket is closed, the timer chain ends,
and no probe is ever sent again; otherwise the timer is re-armed — but
`expires_at(time_sent_ + interval)` leaves the expiry at the deadline
that has just been reached, so no additional interval is scheduled —
and only on that (immediately following) completion does `start_send`
run, transmitting the next probe at time `time_sent_ + interval`, not
one interval later. -/
theorem C5_timer (pid : Nat) (p : pinger) (hph : p.phase = TimerPhase.check) :
    (p.sequence_number ≥ p.count →
      ((p.step pid Event.timer_fire).socket_open = false
        ∧ (p.step pid Event.timer_fire).phase = TimerPhase.idle
        ∧ (p.step pid Event.timer_fire).sent = p.sent
        ∧ ∀ events : List Event,
            (pinger.run pid (p.step pid Event.timer_fire) events).sent = p.sent))
    ∧ (p.sequence_number < p.count →
      ((p.step pid Event.timer_fire).phase = TimerPhase.send
        ∧ (p.step pid Event.timer_fire).timer_expiry = p.time_sent + p.timer_interval
        ∧ (p.step pid Event.timer_fire).sent = p.sent
        ∧ ∃ d : List Nat,
            ((p.step pid Event.timer_fire).step pid Event.timer_fire).sent
              = p.sent ++ [(p.time_sent + p.timer_interval, d)])) := by
  constructor
  · intro hge
    simp only [pinger.step, hph, pinger.handle_timeout, if_pos hge]
    refine ⟨trivial, trivial, trivial, ?_⟩
    intro events
    rw [run_closed_idle pid _ rfl rfl events]
  · intro hlt
    have hge' : ¬ p.sequence_number ≥ p.count := by omega
    simp only [pinger.step, hph, pinger.handle_timeout, if_neg hge']
    refine ⟨trivial, trivial, trivial, ?_⟩
    simp only [pinger.start_send, if_neg hge']
    exact ⟨_, rfl⟩

/-- C5 witness: the re-arm half applied right after the first probe of a
concrete session, and the close half applied to the state reached after
both probes of that session have been sent. -/
theorem C5_witness :
    (((ping_init 5 2 1000).step 5 Event.timer_fire).phase = TimerPhase.send
      ∧ ((ping_init 5 2 1000).step 5 Event.timer_fire).timer_expiry
          = (ping_init 5 2 1000).time_sent + (ping_init 5 2 1000).timer_interval
      ∧ ((ping_init 5 2 1000).step 5 Event.timer_fire).sent = (ping_init 5 2 1000).sent
      ∧ ∃ d : List Nat,
          (((ping_init 5 2 1000).step 5 Event.timer_fire).step 5 Event.timer_fire).sent
            = (ping_init 5 2 1000).sent
              ++ [((ping_init 5 2 1000).time_sent + (ping_init 5 2 1000).timer_interval, d)])
    ∧ ((ping_final 5 2 1000 [Event.timer_fire, Event.timer_fire]).step 5
        Event.timer_fire).socket_open = false :=
  ⟨(C5_timer 5 (ping_init 5 2 1000) (by decide)).2 (by decide),
   (((C5_timer 5 (ping_final 5 2 1000 [Event.timer_fire, Event.timer_fire])
        (by decide)).1 (by decide)).1)⟩

/-- C5 counterexample: in the session `ping_init 5 2 1000` the first
probe goes out at time 0 with the timer expiring at 1000.  The
timeout-check completion (sequence 1 < count 2) re-arms the timer with
expiry still 1000 — not 1000 + 1000 as "re-armed for another full
interval" demands — and the second probe is transmitted at time 1000:
no extra interval elapses between the timeout check and the next
probe. -/
theorem C5_counterexample :
    (ping_init 5 2 1000).timer_expiry = 1000
    ∧ (ping_init 5 2 1000).timer_interval = 1000
    ∧ (ping_init 5 2 1000).phase = TimerPhase.check
    ∧ (ping_init 5 2 1000).sequence_number < (ping_init 5 2 1000).count
    ∧ ((ping_init 5 2 1000).step 5 Event.timer_fire).timer_expiry = 1000
    ∧ ((ping_init 5 2 1000).step 5 Event.timer_fire).timer_expiry ≠ 1000 + 1000
    ∧ (((ping_init 5 2 1000).step 5 Event.timer_fire).step 5 Event.timer_fire).sent.length = 2
    ∧ ((((ping_init 5 2 1000).step 5 Event.timer_fire).step 5
          Event.timer_fire).sent.getD 1 (0, [])).1 = 1000 := by
  decide

theorem byteAt_hi (h : icmp_header) (a b : Fin 8) :
    h.byteAt a = (h.decode a b) >>> 8 := by
  have ha := icmp_byteAt_lt h a
  have hb := icmp_byteAt_lt h b
  unfold icmp_header.decode
  simp [Nat.shiftLeft_eq, Nat.shiftRight_eq_div_pow]
  omega

theorem byteAt_lo (h : icmp_header) (a b : Fin 8) :
    h.byteAt b = (h.decode a b) % 256 := by
  have ha := icmp_byteAt_lt h a
  have hb := icmp_byteAt_lt h b
  unfold icmp_header.decode
  simp [Nat.shiftLeft_eq]
  omega

theorem echo_request_fields (ident seq : Nat) :
    ((((icmp_header.init.set_type icmp_header.echo_request).set_code 0).set_identifier
        ident).set_sequence_number seq).type = 8
    ∧ ((((icmp_header.init.set_type icmp_header.echo_request).set_code 0).set_identifier
        ident).set_sequence_number seq).code = 0
    ∧ ((((icmp_header.init.set_type icmp_header.echo_request).set_code 0).set_identifier
        ident).set_sequence_number seq).identifier = ident % 65536
    ∧ ((((icmp_header.init.set_type icmp_header.echo_request).set_code 0).set_identifier
        ident).set_sequence_number seq).sequence_number = seq % 65536 := by
  refine ⟨?_, ?_, ?_, ?_⟩ <;>
    simp [icmp_header.init, icmp_header.set_type, icmp_header.set_code,
      icmp_header.set_identifier, icmp_header.set_sequence_number, icmp_header.encode,
      icmp_header.type, icmp_header.code, icmp_header.identifier,
      icmp_header.sequence_number, icmp_header.decode, icmp_header.byteAt,
      icmp_header.echo_request, Function.update_apply,
      Nat.shiftLeft_eq, Nat.shiftRight_eq_div_pow] <;>
    omega

theorem compute_checksum_fields (h : icmp_header) (body : List Nat) :
    (compute_checksum h body).type = h.type
    ∧ (compute_checksum h body).code = h.code
    ∧ (compute_checksum h body).identifier = h.identifier
    ∧ (compute_checksum h body).sequence_number = h.sequence_number :=
  ⟨set_checksum_type h _, set_checksum_code h _, set_checksum_identifier h _,
    set_checksum_sequence_number h _⟩

theorem spec_checksum_congr (h1 h2 : icmp_header) (b : List Nat)
    (ht : h1.type = h2.type) (hc : h1.code = h2.code)
    (hi : h1.identifier = h2.identifier) (hs : h1.sequence_number = h2.sequence_number) :
    spec_checksum h1 b = spec_checksum h2 b := by
  simp only [spec_checksum, ht, hc, hi, hs]

theorem spec_word_sum_ping_body : spec_word_sum ping_body = 324095 := by decide

theorem echo_datagram_facts (E : icmp_header) :
    ([E.byteAt 0, E.byteAt 1, E.byteAt 2, E.byteAt 3, E.byteAt 4, E.byteAt 5,
        E.byteAt 6, E.byteAt 7] ++ ping_body).length = 44
    ∧ ([E.byteAt 0, E.byteAt 1, E.byteAt 2, E.byteAt 3, E.byteAt 4, E.byteAt 5,
        E.byteAt 6, E.byteAt 7] ++ ping_body).getD 0 0 = E.type
    ∧ ([E.byteAt 0, E.byteAt 1, E.byteAt 2, E.byteAt 3, E.byteAt 4, E.byteAt 5,
        E.byteAt 6, E.byteAt 7] ++ ping_body).getD 1 0 = E.code
    ∧ ([E.byteAt 0, E.byteAt 1, E.byteAt 2, E.byteAt 3, E.byteAt 4, E.byteAt 5,
        E.byteAt 6, E.byteAt 7] ++ ping_body).getD 4 0 = E.identifier >>> 8
    ∧ ([E.byteAt 0, E.byteAt 1, E.byteAt 2, E.byteAt 3, E.byteAt 4, E.byteAt 5,
        E.byteAt 6, E.byteAt 7] ++ ping_body).getD 5 0 = E.identifier % 256
    ∧ ([E.byteAt 0, E.byteAt 1, E.byteAt 2, E.byteAt 3, E.byteAt 4, E.byteAt 5,
        E.byteAt 6, E.byteAt 7] ++ ping_body).getD 6 0 = E.sequence_number >>> 8
    ∧ ([E.byteAt 0, E.byteAt 1, E.byteAt 2, E.byteAt 3, E.byteAt 4, E.byteAt 5,
        E.byteAt 6, E.byteAt 7] ++ ping_body).getD 7 0 = E.sequence_number % 256
    ∧ (([E.byteAt 0, E.byteAt 1, E.byteAt 2, E.byteAt 3, E.byteAt 4, E.byteAt 5,
        E.byteAt 6, E.byteAt 7] ++ ping_body).getD 2 0 <<< 8)
      + ([E.byteAt 0, E.byteAt 1, E.byteAt 2, E.byteAt 3, E.byteAt 4, E.byteAt 5,
        E.byteAt 6, E.byteAt 7] ++ ping_body).getD 3 0 = E.checksum
    ∧ spec_checksum (⟨fun i => ([E.byteAt 0, E.byteAt 1, E.byteAt 2, E.byteAt 3,
        E.byteAt 4, E.byteAt 5, E.byteAt 6, E.byteAt 7] ++ ping_body).getD i.val 0⟩ :
          icmp_header)
        (([E.byteAt 0, E.byteAt 1, E.byteAt 2, E.byteAt 3, E.byteAt 4, E.byteAt 5,
          E.byteAt 6, E.byteAt 7] ++ ping_body).drop 8)
      = spec_checksum E ping_body
    ∧ ([E.byteAt 0, E.byteAt 1, E.byteAt 2, E.byteAt 3, E.byteAt 4, E.byteAt 5,
        E.byteAt 6, E.byteAt 7] ++ ping_body).drop 8 = ping_body := by
  have hHt : (⟨fun i => ([E.byteAt 0, E.byteAt 1, E.byteAt 2, E.byteAt 3, E.byteAt 4,
        E.byteAt 5, E.byteAt 6, E.byteAt 7] ++ ping_body).getD i.val 0⟩ : icmp_header).type
      = E.type := by
    show E.rep 0 % 256 % 256 = E.rep 0 % 256
    omega
  have hHc : (⟨fun i => ([E.byteAt 0, E.byteAt 1, E.byteAt 2, E.byteAt 3, E.byteAt 4,
        E.byteAt 5, E.byteAt 6, E.byteAt 7] ++ ping_body).getD i.val 0⟩ : icmp_header).code
      = E.code := by
    show E.rep 1 % 256 % 256 = E.rep 1 % 256
    omega
  have hHi : (⟨fun i => ([E.byteAt 0, E.byteAt 1, E.byteAt 2, E.byteAt 3, E.byteAt 4,
        E.byteAt 5, E.byteAt 6, E.byteAt 7] ++ ping_body).getD i.val 0⟩ :
          icmp_header).identifier = E.identifier := by
    show ((E.rep 4 % 256 % 256) <<< 8) + E.rep 5 % 256 % 256
      = ((E.rep 4 % 256) <<< 8) + E.rep 5 % 256
    simp [Nat.shiftLeft_eq]
  have hHs : (⟨fun i => ([E.byteAt 0, E.byteAt 1, E.byteAt 2, E.byteAt 3, E.byteAt 4,
        E.byteAt 5, E.byteAt 6, E.byteAt 7] ++ ping_body).getD i.val 0⟩ :
          icmp_header).sequence_number = E.sequence_number := by
    show ((E.rep 6 % 256 % 256) <<< 8) + E.rep 7 % 256 % 256
      = ((E.rep 6 % 256) <<< 8) + E.rep 7 % 256
    simp [Nat.shiftLeft_eq]
  refine ⟨by simp [ping_body], rfl, rfl, ?_, ?_, ?_, ?_, rfl, ?_, rfl⟩
  · show E.byteAt 4 = E.identifier >>> 8
    rw [byteAt_hi E 4 5]
    rfl
  · show E.byteAt 5 = E.identifier % 256
    rw [byteAt_lo E 4 5]
    rfl
  · show E.byteAt 6 = E.sequence_number >>> 8
    rw [byteAt_hi E 6 7]
    rfl
  · show E.byteAt 7 = E.sequence_number % 256
    rw [byteAt_lo E 6 7]
    rfl
  · exact spec_checksum_congr _ _ ping_body hHt hHc hHi hHs

/-- C8: a send step taken while `sequence_number_ < count_` transmits
one datagram: an 8-byte ICMP header with type 8 (echo request), code 0,
the process token as big-endian identifier, the pre-incremented
sequence number encoded big-endian (high byte 0, low byte the new
sequence number), and a checksum field that equals the spec's Internet
checksum recomputed from the packet's own header fields and body,
followed by the fixed 36-byte ASCII payload. -/
theorem C8_send_packet (pid now : Nat) (p : pinger)
    (hlt : p.sequence_number < p.count) (hcnt : p.count ≤ 255) :
    ∃ d : List Nat,
      (p.start_send pid now).sent = p.sent ++ [(now, d)]
      ∧ (p.start_send pid now).sequence_number = p.sequence_number + 1
      ∧ d.length = 44
      ∧ d.getD 0 0 = icmp_header.echo_request
      ∧ d.getD 1 0 = 0
      ∧ d.getD 4 0 = get_identifier pid >>> 8
      ∧ d.getD 5 0 = get_identifier pid % 256
      ∧ d.getD 6 0 = 0
      ∧ d.getD 7 0 = p.sequence_number + 1
      ∧ (d.getD 2 0 <<< 8) + d.getD 3 0
          = spec_checksum ⟨fun i => d.getD i.val 0⟩ (d.drop 8)
      ∧ d.drop 8 = ping_body := by
  have hge : ¬ p.sequence_number ≥ p.count := by omega
  have hs' : (p.sequence_number + 1) % 256 = p.sequence_number + 1 :=
    Nat.mod_eq_of_lt (by omega)
  simp only [pinger.start_send, if_neg hge, hs']
  obtain ⟨het, hec, hei, hes⟩ :=
    echo_request_fields (get_identifier pid) (p.sequence_number + 1)
  obtain ⟨hct, hcc, hci, hcs⟩ := compute_checksum_fields
    ((((icmp_header.init.set_type icmp_header.echo_request).set_code 0).set_identifier
      (get_identifier pid)).set_sequence_number (p.sequence_number + 1)) ping_body
  have hEt := hct.trans het
  have hEc := hcc.trans hec
  have hEi : (compute_checksum ((((icmp_header.init.set_type
      icmp_header.echo_request).set_code 0).set_identifier
      (get_identifier pid)).set_sequence_number (p.sequence_number + 1))
        ping_body).identifier = get_identifier pid := by
    rw [hci, hei, get_identifier]
    omega
  have hEs : (compute_checksum ((((icmp_header.init.set_type
      icmp_header.echo_request).set_code 0).set_identifier
      (get_identifier pid)).set_sequence_number (p.sequence_number + 1))
        ping_body).sequence_number = p.sequence_number + 1 := by
    rw [hcs, hes]
    omega
  have hbound : ((((((icmp_header.init.set_type icmp_header.echo_request).set_code
        0).set_identifier (get_identifier pid)).set_sequence_number
        (p.sequence_number + 1)).type <<< 8)
      + ((((icmp_header.init.set_type icmp_header.echo_request).set_code
        0).set_identifier (get_identifier pid)).set_sequence_number
        (p.sequence_number + 1)).code
      + ((((icmp_header.init.set_type icmp_header.echo_request).set_code
        0).set_identifier (get_identifier pid)).set_sequence_number
        (p.sequence_number + 1)).identifier
      + ((((icmp_header.init.set_type icmp_header.echo_request).set_code
        0).set_identifier (get_identifier pid)).set_sequence_number
        (p.sequence_number + 1)).sequence_number
      + spec_word_sum ping_body) < M32 := by
    rw [het, hec, hei, hes, spec_word_sum_ping_body, Nat.shiftLeft_eq, M32]
    omega
  obtain ⟨f1, f2, f3, f4, f5, f6, f7, f8, f9, f10⟩ :=
    echo_datagram_facts (compute_checksum ((((icmp_header.init.set_type
      icmp_header.echo_request).set_code 0).set_identifier
      (get_identifier pid)).set_sequence_number (p.sequence_number + 1)) ping_body)
  refine ⟨_, rfl, trivial, f1, ?_, ?_, ?_, ?_, ?_, ?_, ?_, f10⟩
  · rw [f2, hEt]
    rfl
  · rw [f3, hEc]
  · rw [f4, hEi]
  · rw [f5, hEi]
  · rw [f6, hEs, Nat.shiftRight_eq_div_pow]
    omega
  · rw [f7, hEs]
    omega
  · rw [f8, f9, compute_checksum_eq_spec _ _ hbound]
    exact spec_checksum_congr _ _ ping_body hct.symm hcc.symm hci.symm hcs.symm

/-- C8 witness: the send-step claim applied to the session directly
after initialization (sequence 1 of count 4), sending at time 1000. -/
theorem C8_witness :
    (ping_init 5 4 1000).sequence_number < (ping_init 5 4 1000).count
    ∧ (ping_init 5 4 1000).count ≤ 255
    ∧ ∃ d : List Nat,
        ((ping_init 5 4 1000).start_send 5 1000).sent
          = (ping_init 5 4 1000).sent ++ [(1000, d)]
        ∧ ((ping_init 5 4 1000).start_send 5 1000).sequence_number
            = (ping_init 5 4 1000).sequence_number + 1
        ∧ d.length = 44
        ∧ d.getD 0 0 = icmp_header.echo_request
        ∧ d.getD 1 0 = 0
        ∧ d.getD 4 0 = get_identifier 5 >>> 8
        ∧ d.getD 5 0 = get_identifier 5 % 256
        ∧ d.getD 6 0 = 0
        ∧ d.getD 7 0 = (ping_init 5 4 1000).sequence_number + 1
        ∧ (d.getD 2 0 <<< 8) + d.getD 3 0
            = spec_checksum ⟨fun i => d.getD i.val 0⟩ (d.drop 8)
        ∧ d.drop 8 = ping_body :=
  ⟨by decide, by decide,
    C8_send_packet 5 1000 (ping_init 5 4 1000) (by decide) (by decide)⟩
